import Mathlib

/-!
# nats-health-check: a model of `main.go`

The program is one function, `run`, plus a custom dialer whose `Dial` method
records the local IP address of the transport connection it opens.  Everything
`run` touches besides its own control flow is library or operating-system
behaviour (`net.Dial`, `net.ResolveTCPAddr`, `nats.Connect`, `json.Marshal`,
`nc.Request`, `nc.Drain`).  Those are collected in an environment `Env` of
oracles that every theorem quantifies over; the code of `main.go` itself is
transcribed as functions that pass an explicit `World` (the dialer object, the
table of open transport connections, the trace of calls and standard output).
-/

namespace NatsHealthCheck

/-! ## Go values -/

/-- Go `string` and `[]byte` values are finite byte sequences; the conversion
`string(b)` copies the bytes and is the identity here. -/
abbrev GoString := List UInt8

/-- A Go string literal, as its UTF-8 bytes. -/
def str (s : String) : GoString := s.toUTF8.data.toList

/-- Go `error` values.  `errorsNew text` is the value `errors.New(text)` builds;
`foreign code text` stands for an error value made by a library
(`net`, `nats.go`, `encoding/json`). -/
inductive GoError where
  | errorsNew (text : GoString)
  | foreign (code : Nat) (text : GoString)
  deriving DecidableEq

/-- The `Error()` method: the message of an error value. -/
def GoError.Error : GoError → GoString
  | .errorsNew text => text
  | .foreign _ text => text

/-- `net.Addr`, through its two methods `Network()` and `String()`. -/
structure Addr where
  Network : GoString
  String : GoString
  deriving DecidableEq

/-- `net.Conn`: a transport connection, identified by its descriptor, with the
two endpoints `LocalAddr()` and `RemoteAddr()`. -/
structure NetConn where
  fd : Nat
  LocalAddr : Addr
  RemoteAddr : Addr
  deriving DecidableEq

/-- `net.TCPAddr`. -/
structure TCPAddr where
  IP : List UInt8
  Port : Int
  Zone : GoString
  deriving DecidableEq

/-- `*nats.Conn`: the broker connection handle. -/
structure NatsConn where
  id : Nat
  deriving DecidableEq

/-- `*nats.Msg`; only the `Data` field is read by `run`. -/
structure Msg where
  Data : GoString
  deriving DecidableEq

/-- The flag values `run` reads from its `*cli.Context`:
`cli.String("host")`, `cli.Int("port")`, `cli.String("subject")`,
`cli.Duration("timeout")` (nanoseconds) and `cli.String("user-agent")`. -/
structure Context where
  host : GoString
  port : Int
  subject : GoString
  timeout : Int
  userAgent : GoString
  deriving DecidableEq

/-- The struct `dialer` (lines 108-111). -/
structure dialer where
  ClientIP : GoString
  UserAgent : GoString
  deriving DecidableEq

/-- The members `encoding/json` derives from the field tags of `dialer`, in
declaration order: every member value is a JSON string. -/
def dialer.jsonFields (d : dialer) : List (GoString × GoString) :=
  [(str "client_ip", d.ClientIP), (str "user_agent", d.UserAgent)]

/-! ## The environment: library and operating-system behaviour -/

/-- Calls that cross the boundary of `main.go`, in the order they happen. -/
inductive Event where
  | newDialer (agent : GoString)
  | connect (url : GoString)
  | netDial (network address : GoString)
  | connClose (conn : NetConn)
  | connectReturned
  | marshal (fields : List (GoString × GoString))
  | request (nc : NatsConn) (subject data : GoString) (timeout : Int)
  | drain (nc : NatsConn)
  | print (text : GoString)
  deriving DecidableEq

/-- Behaviour that is not code of `main.go`.
* `netDial k network address`: what the `k`-th call of `net.Dial` returns;
* `netResolveTCPAddr`, `ipString`: `net.ResolveTCPAddr` and `net.IP.String`;
* `natsDials url`: the `Dial` calls `nats.Connect(url, opt)` makes on the custom
  dialer, and `natsConnect url` what it finally returns.  The library may pick
  each call from what the earlier ones returned; one execution is still one
  finite sequence of calls followed by one result, and the theorems hold for
  every sequence and every result;
* `jsonMarshal`: the encoder of `encoding/json` on an object of string members;
* `ncRequest`, `ncDrain`: the methods of the broker connection. -/
structure Env where
  netDial : Nat → GoString → GoString → Except GoError NetConn
  netResolveTCPAddr : GoString → GoString → Except GoError TCPAddr
  ipString : List UInt8 → GoString
  natsDials : GoString → List (GoString × GoString)
  natsConnect : GoString → Except GoError NatsConn
  jsonMarshal : List (GoString × GoString) → Except GoError GoString
  ncRequest : NatsConn → GoString → GoString → Int → Except GoError Msg
  ncDrain : NatsConn → Option GoError

/-- The mutable state around `run`: the object `d` that `NewDialer` allocates,
the number of `net.Dial` calls made so far, the transport connections opened
and not closed, the trace of calls, and what was written to standard output. -/
structure World where
  d : dialer
  netDialCalls : Nat
  openConns : List NetConn
  trace : List Event
  stdout : GoString
  deriving DecidableEq

/-- The world before the program has done anything. -/
def World.init : World :=
  { d := { ClientIP := [], UserAgent := [] }, netDialCalls := 0, openConns := [],
    trace := [], stdout := [] }

/-- Append one call to the trace. -/
def World.log (w : World) (e : Event) : World :=
  { w with trace := w.trace ++ [e] }

/-- `net.Dial(network, address)`: the operating system answers; a connection
that was opened is entered in the table of open connections. -/
def net.Dial (env : Env) (network address : GoString) (w : World) :
    Except GoError NetConn × World :=
  let w1 := { w.log (.netDial network address) with netDialCalls := w.netDialCalls + 1 }
  match env.netDial w.netDialCalls network address with
  | .error err => (.error err, w1)
  | .ok conn => (.ok conn, { w1 with openConns := w1.openConns ++ [conn] })

/-- `conn.Close()` on a transport connection: the call is recorded and the
connection leaves the table of open connections.  No line of `main.go` calls
it; it is here so that "closed" has a meaning in the statements. -/
def NetConn.Close (conn : NetConn) (w : World) : World :=
  { w.log (.connClose conn) with openConns := w.openConns.erase conn }

/-! ## The code of `main.go` -/

/-- `NewDialer` (lines 102-106): `d := new(dialer); d.UserAgent = agent`. -/
def NewDialer (agent : GoString) (w : World) : World :=
  { w.log (.newDialer agent) with d := { ClientIP := [], UserAgent := agent } }

/-- `(*dialer).Dial` (lines 113-128).  The Go result pair `(net.Conn, error)` is
a pair of options, `none` being `nil`. -/
def dialer.Dial (env : Env) (network address : GoString) (w : World) :
    (Option NetConn × Option GoError) × World :=
  match net.Dial env network address w with
  | (.error err, w1) => ((none, some err), w1)
  | (.ok conn, w1) =>
    let loc := conn.LocalAddr
    match env.netResolveTCPAddr loc.Network loc.String with
    | .error err => ((none, some err), w1)
    | .ok addr =>
      ((some conn, none), { w1 with d := { w1.d with ClientIP := env.ipString addr.IP } })

/-- The library calling `dialer.Dial(network, address)` for each of its attempts
in turn; what `Dial` returns goes back to the library. -/
def dialAll (env : Env) : List (GoString × GoString) → World → World
  | [], w => w
  | a :: rest, w => dialAll env rest (dialer.Dial env a.1 a.2 w).2

/-- `nats.Connect(url, nats.SetCustomDialer(dialer))`: the library calls
`dialer.Dial` for each of its attempts and then returns. -/
def nats.Connect (env : Env) (url : GoString) (w : World) : Except GoError NatsConn × World :=
  let w1 := w.log (.connect url)
  let w2 := dialAll env (env.natsDials url) w1
  (env.natsConnect url, w2.log .connectReturned)

/-- `json.Marshal(&dialer)`: the pointer is followed to the struct, whose tagged
fields are handed to the encoder. -/
def json.Marshal (env : Env) (w : World) : Except GoError GoString × World :=
  (env.jsonMarshal w.d.jsonFields, w.log (.marshal w.d.jsonFields))

/-- `nc.Request(subject, data, timeout)`. -/
def NatsConn.Request (env : Env) (nc : NatsConn) (subject data : GoString) (timeout : Int)
    (w : World) : Except GoError Msg × World :=
  (env.ncRequest nc subject data timeout, w.log (.request nc subject data timeout))

/-- `nc.Drain()`. -/
def NatsConn.Drain (env : Env) (nc : NatsConn) (w : World) : Option GoError × World :=
  (env.ncDrain nc, w.log (.drain nc))

/-- `fmt.Print(msg)` with a single string operand writes its bytes. -/
def fmt.Print (msg : GoString) (w : World) : World :=
  { w.log (.print msg) with stdout := w.stdout ++ msg }

/-- `strconv.Itoa`. -/
def strconv.Itoa (n : Int) : GoString := str (toString n)

/-- The connection URL of line 71. -/
def url (cli : Context) : GoString :=
  str "nats://" ++ cli.host ++ str ":" ++ strconv.Itoa cli.port

/-- Lines 78-94 of `run`: the part executed while the deferred `nc.Drain()` is
pending. -/
def runConnected (env : Env) (cli : Context) (nc : NatsConn) (w : World) :
    Option GoError × World :=
  match json.Marshal env w with
  | (.error err, w1) => (some err, w1)
  | (.ok req, w1) =>
    match NatsConn.Request env nc cli.subject req cli.timeout w1 with
    | (.error err, w2) => (some err, w2)
    | (.ok resp, w2) =>
      let msg := resp.Data
      if msg ≠ str "ok" then (some (.errorsNew msg), w2)
      else (none, fmt.Print msg w2)

/-- `run` (lines 62-95).  The result is the returned `error` (`none` is `nil`).
`defer nc.Drain()` runs after the return value has been fixed, and the value
`Drain` returns is dropped. -/
def run (env : Env) (cli : Context) (w : World) : Option GoError × World :=
  let subject := cli.subject
  if subject = [] then (some (.errorsNew (str "invalid subject")), w)
  else
    let w1 := NewDialer cli.userAgent w
    match nats.Connect env (url cli) w1 with
    | (.error err, w2) => (some err, w2)
    | (.ok nc, w2) =>
      let r := runConnected env cli nc w2
      (r.1, (NatsConn.Drain env nc r.2).2)

/-! ## Vocabulary of the statements -/

/-- The world in which `nats.Connect` returns to `run`. -/
def connectedWorld (env : Env) (cli : Context) (w : World) : World :=
  (nats.Connect env (url cli) (NewDialer cli.userAgent w)).2

/-- The `net.Dial` calls behind a sequence of `Dial` calls, as trace events. -/
def dialEvents (calls : List (GoString × GoString)) : List Event :=
  calls.map (fun a => Event.netDial a.1 a.2)

/-- What a `Dial` call captures when it succeeds: the IP string of the resolved
local address of the connection that the `k`-th `net.Dial` call opened. -/
def capturedIP (env : Env) (k : Nat) (network address : GoString) : Option GoString :=
  match env.netDial k network address with
  | .error _ => none
  | .ok conn =>
    match env.netResolveTCPAddr conn.LocalAddr.Network conn.LocalAddr.String with
    | .error _ => none
    | .ok addr => some (env.ipString addr.IP)

/-- The capture of the last successful call in a sequence of `Dial` calls whose
first `net.Dial` has number `k`; `none` when no call succeeds. -/
def lastCapturedIP (env : Env) : Nat → List (GoString × GoString) → Option GoString
  | _, [] => none
  | k, a :: rest =>
    match lastCapturedIP env (k + 1) rest with
    | some ip => some ip
    | none => capturedIP env k a.1 a.2

/-- The calls made between the world `w` and the later world `w2`. -/
def newEvents (w w2 : World) : List Event :=
  w2.trace.drop w.trace.length

/-- Whether a call is a request on the broker connection. -/
def Event.isRequest : Event → Bool
  | .request _ _ _ _ => true
  | _ => false

/-- Whether a call is a serialization of the payload. -/
def Event.isMarshal : Event → Bool
  | .marshal _ => true
  | _ => false

/-- Whether a call drains the broker connection `nc`. -/
def Event.isDrainOf (nc : NatsConn) : Event → Bool
  | .drain c => decide (c = nc)
  | _ => false

/-! ## Sample environments -/

/-- The transport connection of the sample environments: local endpoint
`127.0.0.1:50000`, remote endpoint `127.0.0.1:4222`. -/
def sampleConn : NetConn :=
  { fd := 3,
    LocalAddr := { Network := str "tcp", String := str "127.0.0.1:50000" },
    RemoteAddr := { Network := str "tcp", String := str "127.0.0.1:4222" } }

/-- The broker connection of the sample environments. -/
def sampleNc : NatsConn := { id := 1 }

/-- An encoder for members that need no escaping. -/
def sampleMarshal (fields : List (GoString × GoString)) : GoString :=
  str "\x7b" ++
    (str ",").intercalate
      (fields.map (fun m => str "\"" ++ m.1 ++ str "\":\"" ++ m.2 ++ str "\"")) ++
    str "\x7d"

/-- The scenario of the specification: the library first tries `[::1]:4222`,
which is refused, then `127.0.0.1:4222`, which is opened; local addresses on
`tcp` resolve, others are an unknown network; `reply` is what the request
returns and `drained` what `Drain` returns. -/
def sampleEnv (reply : Except GoError Msg) (drained : Option GoError) : Env :=
  { netDial := fun k _ _ =>
      if k = 1 then .ok sampleConn else .error (.foreign 111 (str "connection refused")),
    netResolveTCPAddr := fun network _ =>
      if network = str "tcp" then .ok { IP := [127, 0, 0, 1], Port := 50000, Zone := [] }
      else .error (.foreign 2 (str "unknown network " ++ network)),
    ipString := fun ip => if ip = [127, 0, 0, 1] then str "127.0.0.1" else str "?",
    natsDials := fun _ => [(str "tcp", str "[::1]:4222"), (str "tcp", str "127.0.0.1:4222")],
    natsConnect := fun _ => .ok sampleNc,
    jsonMarshal := fun fields => .ok (sampleMarshal fields),
    ncRequest := fun _ _ _ _ => reply,
    ncDrain := fun _ => drained }

/-- A datagram socket: its local address is on the network `udp`. -/
def udpConn : NetConn :=
  { fd := 4,
    LocalAddr := { Network := str "udp", String := str "127.0.0.1:40000" },
    RemoteAddr := { Network := str "udp", String := str "127.0.0.1:53" } }

/-- The operating system of `sampleEnv`, except that every `net.Dial` opens the
datagram socket `udpConn`, as `net.Dial("udp", "127.0.0.1:53")` does. -/
def udpEnv : Env :=
  { sampleEnv (.ok ⟨str "ok"⟩) none with netDial := fun _ _ _ => .ok udpConn }

/-- The error `Drain` returns on a connection that is already closed. -/
def errConnectionClosed : GoError := .foreign 7 (str "nats: connection closed")

/-- The error of a request that got no reply in time. -/
def errTimeout : GoError := .foreign 8 (str "nats: timeout")

/-- The error `nats.Connect` returns when no server can be reached. -/
def errNoServers : GoError := .foreign 9 (str "nats: no servers available for connection")

/-- The environment of `sampleEnv` in which `nats.Connect` gives up. -/
def noServerEnv : Env :=
  { sampleEnv (.ok ⟨str "ok"⟩) none with natsConnect := fun _ => .error errNoServers }

/-- The flags of the scenario: `--subject health.check --timeout 1s`, the rest
at their defaults. -/
def sampleCli : Context :=
  { host := str "localhost", port := 4222, subject := str "health.check",
    timeout := 1000000000, userAgent := str "NATS Health Check" }

/-! ## How `Dial` and the connection phase change the world -/

theorem Dial_stdout (env : Env) (network address : GoString) (w : World) :
    (dialer.Dial env network address w).2.stdout = w.stdout := by
  unfold dialer.Dial net.Dial
  cases h1 : env.netDial w.netDialCalls network address with
  | error err => simp [World.log]
  | ok conn =>
    cases h2 : env.netResolveTCPAddr conn.LocalAddr.Network conn.LocalAddr.String <;>
      simp [h2, World.log]

theorem Dial_trace (env : Env) (network address : GoString) (w : World) :
    (dialer.Dial env network address w).2.trace = w.trace ++ [Event.netDial network address] := by
  unfold dialer.Dial net.Dial
  cases h1 : env.netDial w.netDialCalls network address with
  | error err => simp [World.log]
  | ok conn =>
    cases h2 : env.netResolveTCPAddr conn.LocalAddr.Network conn.LocalAddr.String <;>
      simp [h2, World.log]

theorem Dial_netDialCalls (env : Env) (network address : GoString) (w : World) :
    (dialer.Dial env network address w).2.netDialCalls = w.netDialCalls + 1 := by
  unfold dialer.Dial net.Dial
  cases h1 : env.netDial w.netDialCalls network address with
  | error err => simp [World.log]
  | ok conn =>
    cases h2 : env.netResolveTCPAddr conn.LocalAddr.Network conn.LocalAddr.String <;>
      simp [h2, World.log]

theorem Dial_UserAgent (env : Env) (network address : GoString) (w : World) :
    (dialer.Dial env network address w).2.d.UserAgent = w.d.UserAgent := by
  unfold dialer.Dial net.Dial
  cases h1 : env.netDial w.netDialCalls network address with
  | error err => simp [World.log]
  | ok conn =>
    cases h2 : env.netResolveTCPAddr conn.LocalAddr.Network conn.LocalAddr.String <;>
      simp [h2, World.log]

theorem Dial_ClientIP (env : Env) (network address : GoString) (w : World) :
    (dialer.Dial env network address w).2.d.ClientIP =
      (capturedIP env w.netDialCalls network address).getD w.d.ClientIP := by
  unfold dialer.Dial net.Dial capturedIP
  cases h1 : env.netDial w.netDialCalls network address with
  | error err => simp [World.log]
  | ok conn =>
    cases h2 : env.netResolveTCPAddr conn.LocalAddr.Network conn.LocalAddr.String <;>
      simp [h2, World.log]

theorem dialAll_stdout (env : Env) (calls : List (GoString × GoString)) (w : World) :
    (dialAll env calls w).stdout = w.stdout := by
  induction calls generalizing w with
  | nil => rfl
  | cons a rest ih => simp [dialAll, ih, Dial_stdout]

theorem dialAll_trace (env : Env) (calls : List (GoString × GoString)) (w : World) :
    (dialAll env calls w).trace = w.trace ++ dialEvents calls := by
  induction calls generalizing w with
  | nil => simp [dialAll, dialEvents]
  | cons a rest ih => simp [dialAll, ih, Dial_trace, dialEvents]

theorem dialAll_UserAgent (env : Env) (calls : List (GoString × GoString)) (w : World) :
    (dialAll env calls w).d.UserAgent = w.d.UserAgent := by
  induction calls generalizing w with
  | nil => rfl
  | cons a rest ih => simp [dialAll, ih, Dial_UserAgent]

theorem dialAll_ClientIP (env : Env) (calls : List (GoString × GoString)) (w : World) :
    (dialAll env calls w).d.ClientIP =
      (lastCapturedIP env w.netDialCalls calls).getD w.d.ClientIP := by
  induction calls generalizing w with
  | nil => rfl
  | cons a rest ih =>
    simp only [dialAll, lastCapturedIP, ih, Dial_netDialCalls, Dial_ClientIP]
    cases lastCapturedIP env (w.netDialCalls + 1) rest <;> rfl

/-- The capture of a successful call is the last one when every later call
fails. -/
theorem lastCapturedIP_last_success (env : Env) (k : Nat)
    (before after : List (GoString × GoString)) (a : GoString × GoString) (ip : GoString)
    (ha : capturedIP env (k + before.length) a.1 a.2 = some ip)
    (hafter : lastCapturedIP env (k + before.length + 1) after = none) :
    lastCapturedIP env k (before ++ a :: after) = some ip := by
  induction before generalizing k with
  | nil =>
    simp only [List.length_nil, Nat.add_zero] at ha hafter
    simp [lastCapturedIP, ha, hafter]
  | cons b rest ih =>
    have h := ih (k + 1)
      (by rw [← ha]; congr 1; simp only [List.length_cons]; omega)
      (by rw [← hafter]; congr 1; simp only [List.length_cons]; omega)
    simp [lastCapturedIP, h]

theorem connectedWorld_stdout (env : Env) (cli : Context) (w : World) :
    (connectedWorld env cli w).stdout = w.stdout := by
  simp [connectedWorld, nats.Connect, World.log, dialAll_stdout, NewDialer]

theorem connectedWorld_trace (env : Env) (cli : Context) (w : World) :
    (connectedWorld env cli w).trace =
      w.trace ++ [Event.newDialer cli.userAgent, Event.connect (url cli)] ++
        dialEvents (env.natsDials (url cli)) ++ [Event.connectReturned] := by
  simp [connectedWorld, nats.Connect, World.log, dialAll_trace, NewDialer]

theorem connectedWorld_UserAgent (env : Env) (cli : Context) (w : World) :
    (connectedWorld env cli w).d.UserAgent = cli.userAgent := by
  simp [connectedWorld, nats.Connect, World.log, dialAll_UserAgent, NewDialer]

theorem connectedWorld_ClientIP (env : Env) (cli : Context) (w : World) :
    (connectedWorld env cli w).d.ClientIP =
      (lastCapturedIP env w.netDialCalls (env.natsDials (url cli))).getD [] := by
  simp [connectedWorld, nats.Connect, World.log, dialAll_ClientIP, NewDialer]

/-- Unfolding `run` once the subject is non-empty and the connection phase is
known to have returned `r`. -/
theorem run_connect_ok (env : Env) (cli : Context) (w : World) (nc : NatsConn)
    (hs : cli.subject ≠ []) (hc : env.natsConnect (url cli) = .ok nc) :
    run env cli w =
      ((runConnected env cli nc (connectedWorld env cli w)).1,
        (NatsConn.Drain env nc (runConnected env cli nc (connectedWorld env cli w)).2).2) := by
  simp [run, hs, connectedWorld, nats.Connect, hc]

theorem run_connect_error (env : Env) (cli : Context) (w : World) (e : GoError)
    (hs : cli.subject ≠ []) (hc : env.natsConnect (url cli) = .error e) :
    run env cli w = (some e, connectedWorld env cli w) := by
  simp [run, hs, connectedWorld, nats.Connect, hc]

/-! ## The reply decides the result -/

/-- C1: for a non-empty subject, when the connection is established, the payload
is serialized and the request returns a reply whose body is exactly the bytes
`ok`, `run` returns no error and appends exactly `ok` to standard output. -/
theorem run_reply_ok (env : Env) (cli : Context) (w : World) (nc : NatsConn)
    (req : GoString) (resp : Msg)
    (hs : cli.subject ≠ [])
    (hc : env.natsConnect (url cli) = .ok nc)
    (hm : env.jsonMarshal (connectedWorld env cli w).d.jsonFields = .ok req)
    (hr : env.ncRequest nc cli.subject req cli.timeout = .ok resp)
    (hok : resp.Data = str "ok") :
    (run env cli w).1 = none ∧ (run env cli w).2.stdout = w.stdout ++ str "ok" := by
  rw [run_connect_ok env cli w nc hs hc]
  simp [runConnected, json.Marshal, NatsConn.Request, NatsConn.Drain, fmt.Print, World.log,
    hm, hr, hok, connectedWorld_stdout]

theorem run_reply_ok_witness :
    (run (sampleEnv (.ok ⟨str "ok"⟩) none) sampleCli World.init).1 = none ∧
      (run (sampleEnv (.ok ⟨str "ok"⟩) none) sampleCli World.init).2.stdout =
        World.init.stdout ++ str "ok" :=
  run_reply_ok (sampleEnv (.ok ⟨str "ok"⟩) none) sampleCli World.init sampleNc
    (sampleMarshal (connectedWorld (sampleEnv (.ok ⟨str "ok"⟩) none) sampleCli
      World.init).d.jsonFields)
    ⟨str "ok"⟩ (by decide) rfl rfl rfl rfl

/-- C2: for a non-empty subject, when the request returns a reply whose body `b`
is not exactly `ok`, `run` returns the error `errors.New(b)`, whose message is
`b`, and standard output is left as it was. -/
theorem run_reply_not_ok (env : Env) (cli : Context) (w : World) (nc : NatsConn)
    (req : GoString) (resp : Msg)
    (hs : cli.subject ≠ [])
    (hc : env.natsConnect (url cli) = .ok nc)
    (hm : env.jsonMarshal (connectedWorld env cli w).d.jsonFields = .ok req)
    (hr : env.ncRequest nc cli.subject req cli.timeout = .ok resp)
    (hne : resp.Data ≠ str "ok") :
    (∃ e, (run env cli w).1 = some e ∧ e.Error = resp.Data) ∧
      (run env cli w).2.stdout = w.stdout := by
  rw [run_connect_ok env cli w nc hs hc]
  simp [runConnected, json.Marshal, NatsConn.Request, NatsConn.Drain, World.log,
    hm, hr, hne, connectedWorld_stdout, GoError.Error]

theorem run_reply_not_ok_witness :
    (∃ e, (run (sampleEnv (.ok ⟨str "ok\n"⟩) none) sampleCli World.init).1 = some e ∧
        e.Error = str "ok\n") ∧
      (run (sampleEnv (.ok ⟨str "ok\n"⟩) none) sampleCli World.init).2.stdout =
        World.init.stdout :=
  run_reply_not_ok (sampleEnv (.ok ⟨str "ok\n"⟩) none) sampleCli World.init sampleNc
    (sampleMarshal (connectedWorld (sampleEnv (.ok ⟨str "ok\n"⟩) none) sampleCli
      World.init).d.jsonFields)
    ⟨str "ok\n"⟩ (by decide) rfl rfl rfl (by decide)

/-- C3: with the empty subject `run` returns `errors.New("invalid subject")`
whatever the host, port, timeout and user agent are, and the world is exactly
as before: no dialer was constructed, no dial, connection or request was made
and nothing was written. -/
theorem run_empty_subject (env : Env) (cli : Context) (w : World)
    (hs : cli.subject = []) :
    run env cli w = (some (GoError.errorsNew (str "invalid subject")), w) ∧
      (GoError.errorsNew (str "invalid subject")).Error = str "invalid subject" := by
  simp [run, hs, GoError.Error]

theorem run_empty_subject_witness :
    run (sampleEnv (.ok ⟨str "ok"⟩) none) { sampleCli with subject := [] } World.init =
        (some (GoError.errorsNew (str "invalid subject")), World.init) ∧
      (GoError.errorsNew (str "invalid subject")).Error = str "invalid subject" :=
  run_empty_subject (sampleEnv (.ok ⟨str "ok"⟩) none) { sampleCli with subject := [] }
    World.init rfl

/-! ## The capturing dialer -/

/-- C4: when `Dial(network, address)` returns a nil error, the connection it
returns is the one `net.Dial` produced, `ClientIP` is afterwards the IP string
of the resolved local address of that connection, and `UserAgent` is as
before. -/
theorem Dial_success (env : Env) (network address : GoString) (w : World)
    (h : (dialer.Dial env network address w).1.2 = none) :
    ∃ conn addr,
      env.netDial w.netDialCalls network address = .ok conn ∧
      env.netResolveTCPAddr conn.LocalAddr.Network conn.LocalAddr.String = .ok addr ∧
      (dialer.Dial env network address w).1.1 = some conn ∧
      (dialer.Dial env network address w).2.d.ClientIP = env.ipString addr.IP ∧
      (dialer.Dial env network address w).2.d.UserAgent = w.d.UserAgent := by
  unfold dialer.Dial net.Dial at h ⊢
  cases h1 : env.netDial w.netDialCalls network address with
  | error err => simp [h1] at h
  | ok conn =>
    cases h2 : env.netResolveTCPAddr conn.LocalAddr.Network conn.LocalAddr.String with
    | error err => simp [h1, h2] at h
    | ok addr => exact ⟨conn, addr, rfl, h2, by simp [h2], by simp [h2], by simp [h2, World.log]⟩

theorem Dial_success_witness :
    (dialer.Dial (sampleEnv (.ok ⟨str "ok"⟩) none) (str "tcp") (str "127.0.0.1:4222")
        { World.init with netDialCalls := 1 }).1.2 = none ∧
    ∃ conn addr,
      (sampleEnv (.ok ⟨str "ok"⟩) none).netDial 1 (str "tcp") (str "127.0.0.1:4222") =
        .ok conn ∧
      (sampleEnv (.ok ⟨str "ok"⟩) none).netResolveTCPAddr conn.LocalAddr.Network
        conn.LocalAddr.String = .ok addr ∧
      (dialer.Dial (sampleEnv (.ok ⟨str "ok"⟩) none) (str "tcp") (str "127.0.0.1:4222")
        { World.init with netDialCalls := 1 }).1.1 = some conn ∧
      (dialer.Dial (sampleEnv (.ok ⟨str "ok"⟩) none) (str "tcp") (str "127.0.0.1:4222")
        { World.init with netDialCalls := 1 }).2.d.ClientIP =
          (sampleEnv (.ok ⟨str "ok"⟩) none).ipString addr.IP ∧
      (dialer.Dial (sampleEnv (.ok ⟨str "ok"⟩) none) (str "tcp") (str "127.0.0.1:4222")
        { World.init with netDialCalls := 1 }).2.d.UserAgent = World.init.d.UserAgent :=
  ⟨by decide,
    Dial_success (sampleEnv (.ok ⟨str "ok"⟩) none) (str "tcp") (str "127.0.0.1:4222")
      { World.init with netDialCalls := 1 } (by decide)⟩

/-- C5: when `net.Dial` returns the error `e`, or opens a connection whose local
address `net.ResolveTCPAddr` rejects with the error `e`, `Dial` returns the nil
connection together with `e`, and the dialer object is as before the call. -/
theorem Dial_failure (env : Env) (network address : GoString) (w : World) (e : GoError)
    (h : env.netDial w.netDialCalls network address = .error e ∨
      ∃ conn, env.netDial w.netDialCalls network address = .ok conn ∧
        env.netResolveTCPAddr conn.LocalAddr.Network conn.LocalAddr.String = .error e) :
    (dialer.Dial env network address w).1 = (none, some e) ∧
      (dialer.Dial env network address w).2.d = w.d := by
  unfold dialer.Dial net.Dial
  rcases h with h1 | ⟨conn, h1, h2⟩
  · simp [h1, World.log]
  · simp [h1, h2, World.log]

theorem Dial_failure_witness :
    (dialer.Dial (sampleEnv (.ok ⟨str "ok"⟩) none) (str "tcp") (str "[::1]:4222")
        World.init).1 = (none, some (GoError.foreign 111 (str "connection refused"))) ∧
      (dialer.Dial (sampleEnv (.ok ⟨str "ok"⟩) none) (str "tcp") (str "[::1]:4222")
        World.init).2.d = World.init.d :=
  Dial_failure (sampleEnv (.ok ⟨str "ok"⟩) none) (str "tcp") (str "[::1]:4222") World.init
    (GoError.foreign 111 (str "connection refused")) (Or.inl rfl)

/-! ## The request -/

theorem dialEvents_not_marshal (calls : List (GoString × GoString)) :
    ∀ ev ∈ dialEvents calls, ev.isMarshal = false := by
  intro ev hev
  obtain ⟨a, _, rfl⟩ := List.mem_map.mp hev
  rfl

theorem dialEvents_not_request (calls : List (GoString × GoString)) :
    ∀ ev ∈ dialEvents calls, ev.isRequest = false := by
  intro ev hev
  obtain ⟨a, _, rfl⟩ := List.mem_map.mp hev
  rfl

theorem dialEvents_not_drain (nc : NatsConn) (calls : List (GoString × GoString)) :
    ∀ ev ∈ dialEvents calls, ev.isDrainOf nc = false := by
  intro ev hev
  obtain ⟨a, _, rfl⟩ := List.mem_map.mp hev
  rfl

theorem filter_isRequest_dialEvents (calls : List (GoString × GoString)) :
    (dialEvents calls).filter Event.isRequest = [] :=
  List.filter_eq_nil_iff.mpr (fun ev hev => by simp [dialEvents_not_request calls ev hev])

theorem filter_isDrainOf_dialEvents (nc : NatsConn) (calls : List (GoString × GoString)) :
    (dialEvents calls).filter (Event.isDrainOf nc) = [] :=
  List.filter_eq_nil_iff.mpr (fun ev hev => by simp [dialEvents_not_drain nc calls ev hev])

theorem connectedWorld_jsonFields (env : Env) (cli : Context) (w : World) (ip : GoString)
    (hip : lastCapturedIP env w.netDialCalls (env.natsDials (url cli)) = some ip) :
    (connectedWorld env cli w).d.jsonFields =
      [(str "client_ip", ip), (str "user_agent", cli.userAgent)] := by
  simp [dialer.jsonFields, connectedWorld_ClientIP, connectedWorld_UserAgent, hip]

/-- The trace of `run` when the connection is established. -/
theorem run_trace_connected (env : Env) (cli : Context) (w : World) (nc : NatsConn)
    (hs : cli.subject ≠ []) (hc : env.natsConnect (url cli) = .ok nc) :
    (run env cli w).2.trace =
      w.trace ++
        ([Event.newDialer cli.userAgent, Event.connect (url cli)] ++
        dialEvents (env.natsDials (url cli)) ++
        [Event.connectReturned, Event.marshal (connectedWorld env cli w).d.jsonFields] ++
        (match env.jsonMarshal (connectedWorld env cli w).d.jsonFields with
          | .error _ => []
          | .ok req =>
            Event.request nc cli.subject req cli.timeout ::
              (match env.ncRequest nc cli.subject req cli.timeout with
                | .error _ => []
                | .ok resp => if resp.Data = str "ok" then [Event.print (str "ok")] else [])) ++
        [Event.drain nc]) := by
  rw [run_connect_ok env cli w nc hs hc]
  unfold runConnected json.Marshal NatsConn.Request NatsConn.Drain
  cases hm : env.jsonMarshal (connectedWorld env cli w).d.jsonFields with
  | error err => simp [World.log, connectedWorld_trace]
  | ok req =>
    cases hr : env.ncRequest nc cli.subject req cli.timeout with
    | error err => simp [World.log, connectedWorld_trace, hr]
    | ok resp =>
      by_cases hok : resp.Data = str "ok"
      · simp [World.log, connectedWorld_trace, hr, hok, fmt.Print]
      · simp [World.log, connectedWorld_trace, hr, hok]

/-- The trace of `run` when the connection cannot be established. -/
theorem run_trace_not_connected (env : Env) (cli : Context) (w : World) (e : GoError)
    (hs : cli.subject ≠ []) (hc : env.natsConnect (url cli) = .error e) :
    (run env cli w).2.trace =
      w.trace ++
        ([Event.newDialer cli.userAgent, Event.connect (url cli)] ++
        dialEvents (env.natsDials (url cli)) ++ [Event.connectReturned]) := by
  rw [run_connect_error env cli w e hs hc, connectedWorld_trace]
  simp

/-- C6: the request `run` sends carries the encoding of the JSON object with
the two members `client_ip` and `user_agent`, in which `user_agent` is the
string given to `NewDialer` and `client_ip` the IP that the last successful
`Dial` of the connection phase captured from its local address; the object is
serialized after `nats.Connect` has returned, and once only. -/
theorem run_request_body (env : Env) (cli : Context) (w : World) (nc : NatsConn)
    (ip req : GoString)
    (hs : cli.subject ≠ [])
    (hc : env.natsConnect (url cli) = .ok nc)
    (hip : lastCapturedIP env w.netDialCalls (env.natsDials (url cli)) = some ip)
    (hm : env.jsonMarshal [(str "client_ip", ip), (str "user_agent", cli.userAgent)] =
      .ok req) :
    ∃ post,
      (run env cli w).2.trace =
        w.trace ++ [Event.newDialer cli.userAgent, Event.connect (url cli)] ++
          dialEvents (env.natsDials (url cli)) ++
          [Event.connectReturned,
            Event.marshal [(str "client_ip", ip), (str "user_agent", cli.userAgent)],
            Event.request nc cli.subject req cli.timeout] ++ post ∧
      ∀ ev ∈ post, ev.isMarshal = false ∧ ev.isRequest = false := by
  have hf := connectedWorld_jsonFields env cli w ip hip
  have ht := run_trace_connected env cli w nc hs hc
  rw [hf, hm] at ht
  cases hr : env.ncRequest nc cli.subject req cli.timeout with
  | error err =>
    refine ⟨[Event.drain nc], ?_, ?_⟩
    · rw [ht]; simp [hr]
    · simp [Event.isMarshal, Event.isRequest]
  | ok resp =>
    by_cases hok : resp.Data = str "ok"
    · refine ⟨[Event.print (str "ok"), Event.drain nc], ?_, ?_⟩
      · rw [ht]; simp [hr, hok]
      · simp [Event.isMarshal, Event.isRequest]
    · refine ⟨[Event.drain nc], ?_, ?_⟩
      · rw [ht]; simp [hr, hok]
      · simp [Event.isMarshal, Event.isRequest]

/-- C7: for a non-empty subject, when `nats.Connect` returns the error `e`,
`run` returns `e`; its calls are the construction of the dialer and the
connection phase only, so nothing is serialized and no request is sent; and
standard output is as before. -/
theorem run_connect_fails (env : Env) (cli : Context) (w : World) (e : GoError)
    (hs : cli.subject ≠ [])
    (hc : env.natsConnect (url cli) = .error e) :
    (run env cli w).1 = some e ∧
      (run env cli w).2.stdout = w.stdout ∧
      (run env cli w).2.trace =
        w.trace ++ [Event.newDialer cli.userAgent, Event.connect (url cli)] ++
          dialEvents (env.natsDials (url cli)) ++ [Event.connectReturned] ∧
      ∀ ev ∈ newEvents w (run env cli w).2, ev.isMarshal = false ∧ ev.isRequest = false := by
  have ht := run_trace_not_connected env cli w e hs hc
  refine ⟨?_, ?_, ?_, ?_⟩
  · rw [run_connect_error env cli w e hs hc]
  · rw [run_connect_error env cli w e hs hc]; exact connectedWorld_stdout env cli w
  · rw [ht]; simp
  · intro ev hev
    rw [newEvents, ht, List.drop_left] at hev
    simp only [List.mem_append, List.mem_cons, List.mem_singleton, List.not_mem_nil,
      or_false] at hev
    rcases hev with ((rfl | rfl) | hev) | rfl
    · exact ⟨rfl, rfl⟩
    · exact ⟨rfl, rfl⟩
    · exact ⟨dialEvents_not_marshal _ ev hev, dialEvents_not_request _ ev hev⟩
    · exact ⟨rfl, rfl⟩

theorem run_request_body_witness :
    ∃ post,
      (run (sampleEnv (.ok ⟨str "degraded"⟩) none) sampleCli World.init).2.trace =
        World.init.trace ++
          [Event.newDialer sampleCli.userAgent, Event.connect (url sampleCli)] ++
          dialEvents ((sampleEnv (.ok ⟨str "degraded"⟩) none).natsDials (url sampleCli)) ++
          [Event.connectReturned,
            Event.marshal
              [(str "client_ip", str "127.0.0.1"), (str "user_agent", sampleCli.userAgent)],
            Event.request sampleNc sampleCli.subject
              (str "\x7b\"client_ip\":\"127.0.0.1\",\"user_agent\":\"NATS Health Check\"\x7d")
              sampleCli.timeout] ++ post ∧
      ∀ ev ∈ post, ev.isMarshal = false ∧ ev.isRequest = false :=
  run_request_body (sampleEnv (.ok ⟨str "degraded"⟩) none) sampleCli World.init sampleNc
    (str "127.0.0.1")
    (str "\x7b\"client_ip\":\"127.0.0.1\",\"user_agent\":\"NATS Health Check\"\x7d")
    (by decide) rfl (by decide) rfl

theorem run_connect_fails_witness :
    (run noServerEnv sampleCli World.init).1 = some errNoServers ∧
      (run noServerEnv sampleCli World.init).2.stdout = World.init.stdout ∧
      (run noServerEnv sampleCli World.init).2.trace =
        World.init.trace ++
          [Event.newDialer sampleCli.userAgent, Event.connect (url sampleCli)] ++
          dialEvents (noServerEnv.natsDials (url sampleCli)) ++ [Event.connectReturned] ∧
      ∀ ev ∈ newEvents World.init (run noServerEnv sampleCli World.init).2,
        ev.isMarshal = false ∧ ev.isRequest = false :=
  run_connect_fails noServerEnv sampleCli World.init errNoServers (by decide) rfl

/-- C8: every execution of `run` issues at most one request, and every request
it issues is on the configured subject with the configured timeout; when the
subject is non-empty, the connection is established and the payload is
serialized, exactly one request is issued, and when that request returns an
error, `run` returns that error, issues no further request and leaves
standard output as it was. -/
theorem run_single_request (env : Env) (cli : Context) (w : World) :
    (run env cli w).2.trace = w.trace ++ newEvents w (run env cli w).2 ∧
    ((newEvents w (run env cli w).2).filter Event.isRequest).length ≤ 1 ∧
    (∀ ev ∈ newEvents w (run env cli w).2, ev.isRequest = true →
      ∃ nc data, ev = Event.request nc cli.subject data cli.timeout) ∧
    (∀ nc req, cli.subject ≠ [] → env.natsConnect (url cli) = .ok nc →
      env.jsonMarshal (connectedWorld env cli w).d.jsonFields = .ok req →
      (newEvents w (run env cli w).2).filter Event.isRequest =
          [Event.request nc cli.subject req cli.timeout] ∧
        ∀ err, env.ncRequest nc cli.subject req cli.timeout = .error err →
          (run env cli w).1 = some err ∧ (run env cli w).2.stdout = w.stdout) := by
  by_cases hs : cli.subject = []
  · simp [run, hs, newEvents]
  · cases hc : env.natsConnect (url cli) with
    | error e =>
      have ht := run_trace_not_connected env cli w e hs hc
      have hn : newEvents w (run env cli w).2 =
          [Event.newDialer cli.userAgent, Event.connect (url cli)] ++
            dialEvents (env.natsDials (url cli)) ++ [Event.connectReturned] := by
        rw [newEvents, ht, List.drop_left]
      refine ⟨by rw [hn, ht], ?_, ?_, ?_⟩
      · simp [hn, List.filter_append, filter_isRequest_dialEvents, Event.isRequest]
      · intro ev hev hreq
        have h0 : (newEvents w (run env cli w).2).filter Event.isRequest = [] := by
          simp [hn, List.filter_append, filter_isRequest_dialEvents, Event.isRequest]
        have : ev ∈ (newEvents w (run env cli w).2).filter Event.isRequest :=
          List.mem_filter.mpr ⟨hev, hreq⟩
        rw [h0] at this
        exact absurd this (List.not_mem_nil ev)
      · intro nc req _ hc2
        simp at hc2
    | ok nc =>
      have ht := run_trace_connected env cli w nc hs hc
      have hn := congrArg (List.drop w.trace.length) ht
      rw [List.drop_left] at hn
      change newEvents w (run env cli w).2 = _ at hn
      have hfilter : (newEvents w (run env cli w).2).filter Event.isRequest =
          (match env.jsonMarshal (connectedWorld env cli w).d.jsonFields with
            | .error _ => []
            | .ok req => [Event.request nc cli.subject req cli.timeout]) := by
        rw [hn]
        cases hm : env.jsonMarshal (connectedWorld env cli w).d.jsonFields with
        | error err =>
          simp [List.filter_append, filter_isRequest_dialEvents, Event.isRequest]
        | ok req =>
          cases hr : env.ncRequest nc cli.subject req cli.timeout with
          | error err =>
            simp [List.filter_append, filter_isRequest_dialEvents, Event.isRequest, hr]
          | ok resp =>
            by_cases hok : resp.Data = str "ok"
            · simp [List.filter_append, filter_isRequest_dialEvents, Event.isRequest, hr, hok]
            · simp [List.filter_append, filter_isRequest_dialEvents, Event.isRequest, hr, hok]
      refine ⟨by rw [hn]; exact ht, ?_, ?_, ?_⟩
      · rw [hfilter]
        cases env.jsonMarshal (connectedWorld env cli w).d.jsonFields <;> simp
      · intro ev hev hreq
        have hmem : ev ∈ (newEvents w (run env cli w).2).filter Event.isRequest :=
          List.mem_filter.mpr ⟨hev, hreq⟩
        rw [hfilter] at hmem
        cases hm : env.jsonMarshal (connectedWorld env cli w).d.jsonFields with
        | error err => simp [hm] at hmem
        | ok req =>
          simp [hm] at hmem
          exact ⟨nc, req, hmem⟩
      · intro nc2 req _ hc2 hm
        have hnc : nc2 = nc := by
          simpa using hc2.symm
        subst hnc
        refine ⟨by rw [hfilter, hm], ?_⟩
        intro err hr
        rw [run_connect_ok env cli w nc2 hs hc]
        simp [runConnected, json.Marshal, NatsConn.Request, NatsConn.Drain, World.log,
          hm, hr, connectedWorld_stdout]

theorem run_single_request_witness :
    (newEvents World.init (run (sampleEnv (.error errTimeout) none) sampleCli
        World.init).2).filter Event.isRequest =
        [Event.request sampleNc sampleCli.subject
          (str "\x7b\"client_ip\":\"127.0.0.1\",\"user_agent\":\"NATS Health Check\"\x7d")
          sampleCli.timeout] ∧
      (run (sampleEnv (.error errTimeout) none) sampleCli World.init).1 = some errTimeout ∧
      (run (sampleEnv (.error errTimeout) none) sampleCli World.init).2.stdout =
        World.init.stdout :=
  have h := (run_single_request (sampleEnv (.error errTimeout) none) sampleCli
    World.init).2.2.2 sampleNc
    (str "\x7b\"client_ip\":\"127.0.0.1\",\"user_agent\":\"NATS Health Check\"\x7d")
    (by decide) rfl rfl
  ⟨h.1, h.2 errTimeout rfl⟩

/-! ## The deferred drain -/

theorem Dial_ncDrain (env : Env) (f : NatsConn → Option GoError)
    (network address : GoString) (w : World) :
    dialer.Dial { env with ncDrain := f } network address w =
      dialer.Dial env network address w := rfl

theorem dialAll_ncDrain (env : Env) (f : NatsConn → Option GoError)
    (calls : List (GoString × GoString)) (w : World) :
    dialAll { env with ncDrain := f } calls w = dialAll env calls w := by
  induction calls generalizing w with
  | nil => rfl
  | cons a rest ih => simp only [dialAll, ih, Dial_ncDrain]

/-- What `Drain` returns has no influence on `run`: neither on the error it
returns nor on the world it leaves. -/
theorem run_ncDrain (env : Env) (f : NatsConn → Option GoError) (cli : Context) (w : World) :
    run { env with ncDrain := f } cli w = run env cli w := by
  unfold run nats.Connect runConnected json.Marshal NatsConn.Request NatsConn.Drain
  simp only [dialAll_ncDrain]

/-- C9, as stated, fails: in the scenario in which the responder replies `ok`
and `Drain` returns the error `nats: connection closed`, the drain is the last
call of `run`, and `run` does not return that error. -/
theorem run_drain_error_not_returned :
    (sampleEnv (.ok ⟨str "ok"⟩) (some errConnectionClosed)).ncDrain sampleNc =
        some errConnectionClosed ∧
      (run (sampleEnv (.ok ⟨str "ok"⟩) (some errConnectionClosed)) sampleCli
        World.init).2.trace.getLast? = some (Event.drain sampleNc) ∧
      (run (sampleEnv (.ok ⟨str "ok"⟩) (some errConnectionClosed)) sampleCli
        World.init).1 ≠ some errConnectionClosed := by
  decide

/-- C9, amended: when the connection is established and the drain at the end of
`run` returns an error `e`, that error is dropped: the result of `run` is the
one lines 78-94 fixed before the drain, and the whole run is the same as when
the drain returns nil. -/
theorem run_drain_error_dropped (env : Env) (cli : Context) (w : World) (nc : NatsConn)
    (e : GoError)
    (hs : cli.subject ≠ [])
    (hc : env.natsConnect (url cli) = .ok nc)
    (_hd : env.ncDrain nc = some e) :
    (run env cli w).1 = (runConnected env cli nc (connectedWorld env cli w)).1 ∧
      run env cli w = run { env with ncDrain := fun _ => none } cli w := by
  refine ⟨?_, (run_ncDrain env _ cli w).symm⟩
  rw [run_connect_ok env cli w nc hs hc]

theorem run_drain_error_dropped_witness :
    (run (sampleEnv (.ok ⟨str "ok"⟩) (some errConnectionClosed)) sampleCli World.init).1 =
        (runConnected (sampleEnv (.ok ⟨str "ok"⟩) (some errConnectionClosed)) sampleCli
          sampleNc
          (connectedWorld (sampleEnv (.ok ⟨str "ok"⟩) (some errConnectionClosed)) sampleCli
            World.init)).1 ∧
      run (sampleEnv (.ok ⟨str "ok"⟩) (some errConnectionClosed)) sampleCli World.init =
        run { sampleEnv (.ok ⟨str "ok"⟩) (some errConnectionClosed) with
          ncDrain := fun _ => none } sampleCli World.init :=
  run_drain_error_dropped (sampleEnv (.ok ⟨str "ok"⟩) (some errConnectionClosed)) sampleCli
    World.init sampleNc errConnectionClosed (by decide) rfl rfl

/-! ## Release of connections

`run` releases the broker connection through the deferred `nc.Drain()`.  A
transport connection is never closed by `main.go`: `Dial` either hands it to the
library or, when the local address does not resolve, drops it.  The library
dials `tcp` only, and the local address of a TCP connection is expected to
resolve, so the second case is not one `run` is expected to reach. -/

/-- Whenever a broker connection was acquired, it is drained exactly once, and
the drain is the last call of `run`. -/
theorem run_drains_once (env : Env) (cli : Context) (w : World) (nc : NatsConn)
    (hs : cli.subject ≠ []) (hc : env.natsConnect (url cli) = .ok nc) :
    (newEvents w (run env cli w).2).filter (Event.isDrainOf nc) = [Event.drain nc] ∧
      (run env cli w).2.trace.getLast? = some (Event.drain nc) := by
  have ht := run_trace_connected env cli w nc hs hc
  have hn := congrArg (List.drop w.trace.length) ht
  rw [List.drop_left] at hn
  change newEvents w (run env cli w).2 = _ at hn
  constructor
  · rw [hn]
    cases hm : env.jsonMarshal (connectedWorld env cli w).d.jsonFields with
    | error err =>
      simp [List.filter_append, filter_isDrainOf_dialEvents, Event.isDrainOf]
    | ok req =>
      cases hr : env.ncRequest nc cli.subject req cli.timeout with
      | error err =>
        simp [List.filter_append, filter_isDrainOf_dialEvents, Event.isDrainOf, hr]
      | ok resp =>
        by_cases hok : resp.Data = str "ok"
        · simp [List.filter_append, filter_isDrainOf_dialEvents, Event.isDrainOf, hr, hok]
        · simp [List.filter_append, filter_isDrainOf_dialEvents, Event.isDrainOf, hr, hok]
  · rw [ht, ← List.append_assoc, List.getLast?_append]
    rfl

/-- A connection that `net.Dial` opened and whose local address resolves is
handed back by `Dial`, with a nil error. -/
theorem Dial_resolved_conn_returned (env : Env) (network address : GoString) (w : World)
    (conn : NetConn) (addr : TCPAddr)
    (h1 : env.netDial w.netDialCalls network address = .ok conn)
    (h2 : env.netResolveTCPAddr conn.LocalAddr.Network conn.LocalAddr.String = .ok addr) :
    (dialer.Dial env network address w).1 = (some conn, none) := by
  unfold dialer.Dial net.Dial
  simp [h1, h2]

/-- The only call `Dial` makes across the boundary is `net.Dial`; in
particular it closes nothing. -/
theorem Dial_newEvents (env : Env) (network address : GoString) (w : World) :
    newEvents w (dialer.Dial env network address w).2 = [Event.netDial network address] := by
  rw [newEvents, Dial_trace, List.drop_left]

/-- C10, as stated, fails: `Dial("udp", "127.0.0.1:53")` has `net.Dial` open the
socket `udpConn`, whose local address does not resolve; `Dial` then returns the
nil connection, its only call was `net.Dial`, no `Close` of `udpConn` is in the
trace, and `udpConn` is still in the table of open connections: the connection
was neither returned to the caller nor closed. -/
theorem Dial_udp_neither_returned_nor_closed :
    udpEnv.netDial World.init.netDialCalls (str "udp") (str "127.0.0.1:53") = .ok udpConn ∧
      (dialer.Dial udpEnv (str "udp") (str "127.0.0.1:53") World.init).1 =
        (none, some (GoError.foreign 2 (str "unknown network udp"))) ∧
      ¬ ((dialer.Dial udpEnv (str "udp") (str "127.0.0.1:53") World.init).1.1 = some udpConn ∨
        Event.connClose udpConn ∈
          (dialer.Dial udpEnv (str "udp") (str "127.0.0.1:53") World.init).2.trace) ∧
      udpConn ∈ (dialer.Dial udpEnv (str "udp") (str "127.0.0.1:53") World.init).2.openConns :=
  ⟨rfl, by decide, by decide, by decide⟩

/-- C10, amended: on every path of `run` on which a broker connection was
acquired, that connection is drained exactly once and the drain is the last
call before `run` returns; and every transport connection that `Dial` opened
and whose local address resolves is returned to the caller. -/
theorem run_drains_once_Dial_returns (env : Env) (cli : Context) (w : World) :
    (∀ nc, cli.subject ≠ [] → env.natsConnect (url cli) = .ok nc →
      (newEvents w (run env cli w).2).filter (Event.isDrainOf nc) = [Event.drain nc] ∧
        (run env cli w).2.trace.getLast? = some (Event.drain nc)) ∧
    (∀ network address conn addr,
      env.netDial w.netDialCalls network address = .ok conn →
      env.netResolveTCPAddr conn.LocalAddr.Network conn.LocalAddr.String = .ok addr →
      (dialer.Dial env network address w).1 = (some conn, none)) :=
  ⟨fun nc hs hc => run_drains_once env cli w nc hs hc,
    fun network address conn addr h1 h2 =>
      Dial_resolved_conn_returned env network address w conn addr h1 h2⟩

theorem run_drains_once_Dial_returns_witness :
    ((newEvents World.init (run (sampleEnv (.ok ⟨str "degraded"⟩) none) sampleCli
        World.init).2).filter (Event.isDrainOf sampleNc) = [Event.drain sampleNc] ∧
      (run (sampleEnv (.ok ⟨str "degraded"⟩) none) sampleCli World.init).2.trace.getLast? =
        some (Event.drain sampleNc)) ∧
    (dialer.Dial (sampleEnv (.ok ⟨str "degraded"⟩) none) (str "tcp") (str "127.0.0.1:4222")
      { World.init with netDialCalls := 1 }).1 = (some sampleConn, none) :=
  ⟨(run_drains_once_Dial_returns (sampleEnv (.ok ⟨str "degraded"⟩) none) sampleCli
      World.init).1 sampleNc (by decide) rfl,
    (run_drains_once_Dial_returns (sampleEnv (.ok ⟨str "degraded"⟩) none) sampleCli
      { World.init with netDialCalls := 1 }).2 (str "tcp") (str "127.0.0.1:4222") sampleConn
      { IP := [127, 0, 0, 1], Port := 50000, Zone := [] } rfl rfl⟩

end NatsHealthCheck
